import Mathlib

/-!
Shallow embedding of the content moderation decision logic found in
src/models/moderation-decision-logic/1/model.py.

Modelling conventions:
- Python floats are modelled as exact rationals.
- numpy arrays are modelled as lists; byte-encoded strings arrive already
  decoded, as in the Python code after the .decode calls.
- Python str.lower / str.strip / the in-operator on strings are embedded as
  character-list operations with the same semantics.
- Exceptions raised while processing one request (for example an IndexError
  when safety_scores is shorter than 2) are modelled with Except; the
  execute loop turns them into per-request error responses, exactly as the
  try/except in TritonPythonModel.execute does.
-/

/-- Result string of one decision factor. The Python code uses the string
literals APPROVE / REVIEW / REJECT. -/
inductive FactorResult
  | APPROVE
  | REVIEW
  | REJECT
  deriving DecidableEq

/-- One factor verdict dict: result, confidence, reason. -/
structure FactorVerdict where
  result : FactorResult
  confidence : ℚ
  reason : String
  deriving DecidableEq

/-- The configuration installed by TritonPythonModel.initialize: thresholds,
the sensitive category id set, and the ordered blocked keyword list. -/
structure Config where
  safety_threshold : ℚ
  content_confidence_threshold : ℚ
  text_confidence_threshold : ℚ
  sensitive_categories : List Int
  blocked_keywords : List String
  deriving DecidableEq

/-- The values assigned in TritonPythonModel.initialize. -/
def defaultConfig : Config :=
  { safety_threshold := 0.85
    content_confidence_threshold := 0.7
    text_confidence_threshold := 0.6
    sensitive_categories := [413, 414, 415, 939, 940, 941, 508, 509, 510]
    blocked_keywords :=
      ["violence", "weapon", "hate", "discrimination",
       "illegal", "drugs", "explicit", "inappropriate"] }

/-- The per-image signal bundle, i.e. the inputs gathered by _extract_inputs
after taking batch row 0 and decoding strings, as _make_moderation_decision
does. content_scores and detected_language are extracted but never used by
the decision logic. -/
structure SignalBundle where
  content_scores : List ℚ
  content_class : Int
  content_confidence : ℚ
  safety_scores : List ℚ
  is_safe : Bool
  risk_level : String
  ocr_text : List String
  text_confidence : List ℚ
  detected_language : String
  deriving DecidableEq

/-- Python str.lower, character by character. -/
def pyLower (s : String) : String :=
  String.mk (s.data.map Char.toLower)

/-- Python str.strip: drop leading and trailing whitespace. -/
def pyStrip (s : String) : String :=
  String.mk (((s.data.dropWhile Char.isWhitespace).reverse.dropWhile
    Char.isWhitespace).reverse)

/-- Python " ".join(texts). -/
def joinSpace : List String → String
  | [] => ""
  | [t] => t
  | t :: ts => t ++ " " ++ joinSpace ts

/-- Does the character list start with the given needle? -/
def charsStartWith : List Char → List Char → Bool
  | [], _ => true
  | _ :: _, [] => false
  | a :: as, b :: bs => a == b && charsStartWith as bs

/-- Does the character list contain the needle as a contiguous run? -/
def charsContain (needle : List Char) : List Char → Bool
  | [] => needle.isEmpty
  | c :: cs => charsStartWith needle (c :: cs) || charsContain needle cs

/-- Python `keyword in text` substring membership. -/
def containsKeyword (text keyword : String) : Bool :=
  charsContain keyword.data text.data

/-- _evaluate_safety.  The Python code reads safety_scores[0] and
safety_scores[1] unconditionally before branching, so a list shorter than 2
raises an IndexError whatever the flags say; that is the Except.error case. -/
def evaluate_safety (safety_scores : List ℚ) (is_safe : Bool)
    (risk_level : String) : Except String FactorVerdict :=
  match (safety_scores[0]? : Option ℚ), (safety_scores[1]? : Option ℚ) with
  | some safe_score, some nsfw_score =>
    if !is_safe || risk_level == "HIGH" then
      .ok { result := .REJECT, confidence := 0.95, reason := "Safety violation" }
    else if risk_level == "MEDIUM" || nsfw_score > 0.3 then
      .ok { result := .REVIEW, confidence := 0.7, reason := "Moderate risk detected" }
    else
      .ok { result := .APPROVE, confidence := safe_score,
            reason := "Content appears safe" }
  | _, _ => .error "index out of range"

/-- _evaluate_content. -/
def evaluate_content (cfg : Config) (content_class : Int) (confidence : ℚ) :
    FactorVerdict :=
  if cfg.sensitive_categories.contains content_class then
    { result := .REJECT, confidence := confidence, reason := "Sensitive category" }
  else if confidence < cfg.content_confidence_threshold then
    { result := .REVIEW, confidence := confidence,
      reason := "Low classification confidence" }
  else
    { result := .APPROVE, confidence := confidence,
      reason := "Appropriate content category" }

/-- _evaluate_text: empty/blank text approves; otherwise the first blocked
keyword (in configured order) that occurs as a substring rejects; otherwise
the mean OCR confidence (0.0 for an empty list) is compared with the text
confidence threshold. -/
def evaluate_text (cfg : Config) (text : String) (text_confidences : List ℚ) :
    FactorVerdict :=
  if (pyStrip text).data.isEmpty then
    { result := .APPROVE, confidence := 1, reason := "No text detected" }
  else
    match cfg.blocked_keywords.find? (fun keyword => containsKeyword text keyword) with
    | some keyword =>
      { result := .REJECT, confidence := 0.9,
        reason := "Blocked keyword: " ++ keyword }
    | none =>
      let avg : ℚ :=
        if text_confidences.length > 0 then
          text_confidences.sum / (text_confidences.length : ℚ)
        else 0
      if avg < cfg.text_confidence_threshold then
        { result := .REVIEW, confidence := avg, reason := "Low OCR confidence" }
      else
        { result := .APPROVE, confidence := avg,
          reason := "Text content acceptable" }

/-- Python max over a list; the nil case never arises where the code calls
it (max of an empty list raises in Python). -/
def listMax : List ℚ → ℚ
  | [] => 0
  | x :: xs => xs.foldl max x

/-- The confidences of the REJECT factors, as filtered inside
_combine_decision_factors. -/
def reject_confidences (factors : List FactorVerdict) : List ℚ :=
  (factors.filter (fun f => f.result == FactorResult.REJECT)).map
    (fun f => f.confidence)

/-- The final decision dict returned by _combine_decision_factors. -/
structure FinalDecision where
  decision : String
  confidence : ℚ
  deriving DecidableEq

/-- _combine_decision_factors, applied to the three factors in the order the
Python dict is built: safety_check, content_check, text_check. -/
def combine_decision_factors (safety_check content_check text_check :
    FactorVerdict) : FinalDecision :=
  let factors := [safety_check, content_check, text_check]
  let results := factors.map (fun f => f.result)
  let confidences := factors.map (fun f => f.confidence)
  if results.contains FactorResult.REJECT then
    { decision := "REJECTED", confidence := listMax (reject_confidences factors) }
  else if results.contains FactorResult.REVIEW then
    { decision := "REVIEW_REQUIRED",
      confidence := confidences.sum / (confidences.length : ℚ) }
  else
    { decision := "APPROVED",
      confidence := confidences.sum / (confidences.length : ℚ) }

/-- _get_content_category_name. -/
def get_content_category_name (class_id : Int) : String :=
  if class_id == 281 then "tabby_cat"
  else if class_id == 285 then "egyptian_cat"
  else if class_id == 413 then "assault_rifle"
  else if class_id == 939 then "bikini"
  else "class_" ++ toString class_id

/-- The processing_metadata dict that the Python code serializes to JSON. -/
structure ProcessingMetadata where
  decision_factors : List (String × FactorVerdict)
  model_version : String
  processing_time_ms : ℚ
  content_class_id : Int
  safety_scores : List ℚ
  risk_level : String
  deriving DecidableEq

/-- The result dict built by _make_moderation_decision. -/
structure ModerationResult where
  moderation_decision : String
  confidence_score : ℚ
  content_category : String
  safety_assessment : String
  extracted_text : List String
  processing_metadata : ProcessingMetadata
  deriving DecidableEq

/-- _make_moderation_decision: evaluate the three factors, combine them, and
assemble the result record.  Python renders the booleans True/False in the
safety assessment string. -/
def make_moderation_decision (cfg : Config) (b : SignalBundle) :
    Except String ModerationResult :=
  let combined_text := pyLower (joinSpace b.ocr_text)
  match evaluate_safety b.safety_scores b.is_safe b.risk_level with
  | .error e => .error e
  | .ok safety_check =>
    let content_check := evaluate_content cfg b.content_class b.content_confidence
    let text_check := evaluate_text cfg combined_text b.text_confidence
    let final := combine_decision_factors safety_check content_check text_check
    .ok
      { moderation_decision := final.decision
        confidence_score := final.confidence
        content_category := get_content_category_name b.content_class
        safety_assessment :=
          "Risk: " ++ b.risk_level ++ ", Safe: " ++
            (if b.is_safe then "True" else "False")
        extracted_text := b.ocr_text
        processing_metadata :=
          { decision_factors :=
              [("safety_check", safety_check), ("content_check", content_check),
               ("text_check", text_check)]
            model_version := "v2.1.0"
            processing_time_ms := 0
            content_class_id := b.content_class
            safety_scores := b.safety_scores
            risk_level := b.risk_level } }

/-- Final decision string of evaluate, if processing succeeded. -/
def finalDecisionOf (cfg : Config) (b : SignalBundle) : Option String :=
  (make_moderation_decision cfg b).toOption.map (fun r => r.moderation_decision)

/-- Final confidence of evaluate, if processing succeeded. -/
def finalConfidenceOf (cfg : Config) (b : SignalBundle) : Option ℚ :=
  (make_moderation_decision cfg b).toOption.map (fun r => r.confidence_score)

/-- One response of the execute loop: a normal inference response or an
error response produced by the per-request except handler. -/
inductive InferenceResponse
  | ok (r : ModerationResult)
  | error (msg : String)
  deriving DecidableEq

/-- Body of the per-request try/except in TritonPythonModel.execute. -/
def process_request (cfg : Config) (b : SignalBundle) : InferenceResponse :=
  match make_moderation_decision cfg b with
  | .ok r => .ok r
  | .error e => .error ("Processing error: " ++ e)

/-- TritonPythonModel.execute: one response appended per request, in order. -/
def execute (cfg : Config) (requests : List SignalBundle) :
    List InferenceResponse :=
  requests.map (process_request cfg)

deriving instance DecidableEq for Except

/-! ### Concrete bundles used by witnesses and counterexamples -/

/-- A bundle on which all three factors approve (spec scenario 2). -/
def bundleAllApprove : SignalBundle :=
  { content_scores := []
    content_class := 281
    content_confidence := 0.8
    safety_scores := [0.9, 0.05, 0, 0, 0]
    is_safe := true
    risk_level := "LOW"
    ocr_text := []
    text_confidence := []
    detected_language := "en" }

/-- Unsafe flag and a sensitive category: two REJECT factors. -/
def bundleRejectTwo : SignalBundle :=
  { bundleAllApprove with
    is_safe := false
    content_class := 413
    content_confidence := 0.9 }

/-- Classification confidence below the 0.7 threshold: one REVIEW factor. -/
def bundleReview : SignalBundle :=
  { bundleAllApprove with content_confidence := 0.5 }

/-- OCR text containing two blocked keywords, hate first in list order. -/
def bundleKeyword : SignalBundle :=
  { bundleAllApprove with
    ocr_text := ["HATE and", "illegal stuff"]
    text_confidence := [0.9] }

/-- Out-of-contract inputs: a confidence outside [0,1] and an unknown risk
level enum value. -/
def bundleOutOfContract : SignalBundle :=
  { bundleAllApprove with
    content_confidence := 5
    risk_level := "UNRECOGNIZED" }

/-- safety_scores shorter than the contractual length. -/
def bundleShortScores : SignalBundle :=
  { bundleAllApprove with safety_scores := [0.9] }

/-- A bundle with empty OCR text but low OCR confidences, showing the
short-circuit ignores textConfidences. -/
def bundleEmptyTextLowConf : SignalBundle :=
  { bundleAllApprove with text_confidence := [0.2, 0.4] }

/-- A safe score above 1: every factor approves but the mean exceeds 1. -/
def bundleOverScore : SignalBundle :=
  { bundleAllApprove with
    safety_scores := [1.5, 0.05]
    content_confidence := 0.9 }

/-- The factor verdicts realised on the concrete bundles above. -/
def safetyRejectVerdict : FactorVerdict :=
  { result := .REJECT, confidence := 0.95, reason := "Safety violation" }

def contentRejectVerdict : FactorVerdict :=
  { result := .REJECT, confidence := 0.9, reason := "Sensitive category" }

def textApproveNoText : FactorVerdict :=
  { result := .APPROVE, confidence := 1, reason := "No text detected" }

def safetyApproveVerdict : FactorVerdict :=
  { result := .APPROVE, confidence := 0.9, reason := "Content appears safe" }

def contentReviewVerdict : FactorVerdict :=
  { result := .REVIEW, confidence := 0.5, reason := "Low classification confidence" }

def contentApproveVerdict : FactorVerdict :=
  { result := .APPROVE, confidence := 0.8, reason := "Appropriate content category" }

/-! ### Helper lemmas -/

theorem le_foldl_max (l : List ℚ) : ∀ a : ℚ, a ≤ l.foldl max a := by
  induction l with
  | nil => intro a; simp
  | cons x xs ih =>
    intro a
    exact le_trans (le_max_left a x) (ih (max a x))

theorem mem_le_foldl_max (l : List ℚ) :
    ∀ (a x : ℚ), x ∈ l → x ≤ l.foldl max a := by
  induction l with
  | nil => intro a x hx; cases hx
  | cons y ys ih =>
    intro a x hx
    rcases List.mem_cons.mp hx with h | h
    · subst h
      exact le_trans (le_max_right a x) (le_foldl_max ys (max a x))
    · exact ih (max a y) x h

theorem foldl_max_mem (l : List ℚ) :
    ∀ a : ℚ, l.foldl max a = a ∨ l.foldl max a ∈ l := by
  induction l with
  | nil => intro a; left; rfl
  | cons y ys ih =>
    intro a
    rcases ih (max a y) with h | h
    · rcases max_choice a y with hm | hm
      · left; simpa [hm] using h
      · right; rw [List.foldl_cons, h, hm]; exact List.mem_cons_self y ys
    · right; exact List.mem_cons_of_mem y h

theorem le_listMax (l : List ℚ) (x : ℚ) (hx : x ∈ l) : x ≤ listMax l := by
  cases l with
  | nil => cases hx
  | cons y ys =>
    rcases List.mem_cons.mp hx with h | h
    · subst h; exact le_foldl_max ys x
    · exact mem_le_foldl_max ys y x h

theorem listMax_mem (l : List ℚ) (h : l ≠ []) : listMax l ∈ l := by
  cases l with
  | nil => exact absurd rfl h
  | cons y ys =>
    rcases foldl_max_mem ys y with h' | h'
    · rw [listMax, h']; exact List.mem_cons_self y ys
    · exact List.mem_cons_of_mem y h'

theorem find?_first {p : String → Bool} (pre : List String) (post : List String)
    (k : String) (hk : p k = true) (hpre : ∀ x ∈ pre, p x = false) :
    (pre ++ k :: post).find? p = some k := by
  induction pre with
  | nil => simp [List.find?_cons_of_pos, hk]
  | cons y ys ih =>
    have hy : p y = false := hpre y (List.mem_cons_self y ys)
    rw [List.cons_append, List.find?_cons_of_neg _ (by simp [hy])]
    exact ih (fun x hx => hpre x (List.mem_cons_of_mem y hx))

theorem list_sum_nonneg (l : List ℚ) (h : ∀ x ∈ l, 0 ≤ x) : 0 ≤ l.sum := by
  induction l with
  | nil => simp
  | cons y ys ih =>
    rw [List.sum_cons]
    have hy := h y (List.mem_cons_self y ys)
    have hs := ih (fun x hx => h x (List.mem_cons_of_mem y hx))
    linarith

theorem list_sum_le_length (l : List ℚ) (h : ∀ x ∈ l, x ≤ 1) :
    l.sum ≤ (l.length : ℚ) := by
  induction l with
  | nil => simp
  | cons y ys ih =>
    rw [List.sum_cons, List.length_cons]
    have hy := h y (List.mem_cons_self y ys)
    have hs := ih (fun x hx => h x (List.mem_cons_of_mem y hx))
    push_cast
    linarith

theorem results_contains_reject_true {s c t : FactorVerdict}
    (h : s.result = .REJECT ∨ c.result = .REJECT ∨ t.result = .REJECT) :
    ([s, c, t].map (fun f => f.result)).contains FactorResult.REJECT = true := by
  rcases h with h | h | h <;> simp [h]

theorem results_contains_reject_false {s c t : FactorVerdict}
    (hs : s.result ≠ .REJECT) (hc : c.result ≠ .REJECT) (ht : t.result ≠ .REJECT) :
    ([s, c, t].map (fun f => f.result)).contains FactorResult.REJECT = false := by
  simp [List.contains_cons]
  exact ⟨fun h => hs h.symm, fun h => hc h.symm, fun h => ht h.symm⟩

theorem results_contains_review_true {s c t : FactorVerdict}
    (h : s.result = .REVIEW ∨ c.result = .REVIEW ∨ t.result = .REVIEW) :
    ([s, c, t].map (fun f => f.result)).contains FactorResult.REVIEW = true := by
  rcases h with h | h | h <;> simp [h]

theorem results_contains_review_false {s c t : FactorVerdict}
    (hs : s.result ≠ .REVIEW) (hc : c.result ≠ .REVIEW) (ht : t.result ≠ .REVIEW) :
    ([s, c, t].map (fun f => f.result)).contains FactorResult.REVIEW = false := by
  simp [List.contains_cons]
  exact ⟨fun h => hs h.symm, fun h => hc h.symm, fun h => ht h.symm⟩

theorem combine_of_reject {s c t : FactorVerdict}
    (h : s.result = .REJECT ∨ c.result = .REJECT ∨ t.result = .REJECT) :
    combine_decision_factors s c t =
      { decision := "REJECTED",
        confidence := listMax (reject_confidences [s, c, t]) } := by
  unfold combine_decision_factors
  rw [if_pos]
  exact (results_contains_reject_true h)

theorem combine_of_review {s c t : FactorVerdict}
    (hs : s.result ≠ .REJECT) (hc : c.result ≠ .REJECT) (ht : t.result ≠ .REJECT)
    (h : s.result = .REVIEW ∨ c.result = .REVIEW ∨ t.result = .REVIEW) :
    combine_decision_factors s c t =
      { decision := "REVIEW_REQUIRED",
        confidence := (s.confidence + c.confidence + t.confidence) / 3 } := by
  unfold combine_decision_factors
  rw [if_neg, if_pos]
  · have : ([s, c, t].map (fun f => f.confidence)).sum
        = s.confidence + c.confidence + t.confidence := by
      simp [List.sum_cons]
      ring
    rw [FinalDecision.mk.injEq]
    refine ⟨rfl, ?_⟩
    rw [this]
    norm_num
  · exact results_contains_review_true h
  · rw [results_contains_reject_false hs hc ht]
    exact Bool.false_ne_true

theorem combine_of_approve {s c t : FactorVerdict}
    (hs : s.result = .APPROVE) (hc : c.result = .APPROVE) (ht : t.result = .APPROVE) :
    combine_decision_factors s c t =
      { decision := "APPROVED",
        confidence := (s.confidence + c.confidence + t.confidence) / 3 } := by
  unfold combine_decision_factors
  rw [if_neg, if_neg]
  · have : ([s, c, t].map (fun f => f.confidence)).sum
        = s.confidence + c.confidence + t.confidence := by
      simp [List.sum_cons]
      ring
    rw [FinalDecision.mk.injEq]
    refine ⟨rfl, ?_⟩
    rw [this]
    norm_num
  · rw [@results_contains_review_false s c t
      (by simp [hs]) (by simp [hc]) (by simp [ht])]
    exact Bool.false_ne_true
  · rw [@results_contains_reject_false s c t
      (by simp [hs]) (by simp [hc]) (by simp [ht])]
    exact Bool.false_ne_true

theorem combine_decision_approved_iff (s c t : FactorVerdict) :
    (combine_decision_factors s c t).decision = "APPROVED" ↔
      s.result = .APPROVE ∧ c.result = .APPROVE ∧ t.result = .APPROVE := by
  constructor
  · intro h
    by_cases hrej : s.result = .REJECT ∨ c.result = .REJECT ∨ t.result = .REJECT
    · rw [combine_of_reject hrej] at h
      have h' : "REJECTED" = "APPROVED" := h
      exact absurd h' (by decide)
    · push_neg at hrej
      by_cases hrev : s.result = .REVIEW ∨ c.result = .REVIEW ∨ t.result = .REVIEW
      · rw [combine_of_review hrej.1 hrej.2.1 hrej.2.2 hrev] at h
        have h' : "REVIEW_REQUIRED" = "APPROVED" := h
        exact absurd h' (by decide)
      · push_neg at hrev
        refine ⟨?_, ?_, ?_⟩
        · cases hx : s.result
          · rfl
          · exact absurd hx hrev.1
          · exact absurd hx hrej.1
        · cases hx : c.result
          · rfl
          · exact absurd hx hrev.2.1
          · exact absurd hx hrej.2.1
        · cases hx : t.result
          · rfl
          · exact absurd hx hrev.2.2
          · exact absurd hx hrej.2.2
  · rintro ⟨hs, hc, ht⟩
    rw [combine_of_approve hs hc ht]

theorem make_moderation_decision_of_safety {cfg : Config} {b : SignalBundle}
    {s : FactorVerdict}
    (hs : evaluate_safety b.safety_scores b.is_safe b.risk_level = .ok s) :
    make_moderation_decision cfg b =
      .ok
        { moderation_decision :=
            (combine_decision_factors s
              (evaluate_content cfg b.content_class b.content_confidence)
              (evaluate_text cfg (pyLower (joinSpace b.ocr_text))
                b.text_confidence)).decision
          confidence_score :=
            (combine_decision_factors s
              (evaluate_content cfg b.content_class b.content_confidence)
              (evaluate_text cfg (pyLower (joinSpace b.ocr_text))
                b.text_confidence)).confidence
          content_category := get_content_category_name b.content_class
          safety_assessment :=
            "Risk: " ++ b.risk_level ++ ", Safe: " ++
              (if b.is_safe then "True" else "False")
          extracted_text := b.ocr_text
          processing_metadata :=
            { decision_factors :=
                [("safety_check", s),
                 ("content_check",
                  evaluate_content cfg b.content_class b.content_confidence),
                 ("text_check",
                  evaluate_text cfg (pyLower (joinSpace b.ocr_text))
                    b.text_confidence)]
              model_version := "v2.1.0"
              processing_time_ms := 0
              content_class_id := b.content_class
              safety_scores := b.safety_scores
              risk_level := b.risk_level } } := by
  unfold make_moderation_decision
  rw [hs]

theorem finalDecisionOf_of_safety {cfg : Config} {b : SignalBundle}
    {s : FactorVerdict}
    (hs : evaluate_safety b.safety_scores b.is_safe b.risk_level = .ok s) :
    finalDecisionOf cfg b =
      some (combine_decision_factors s
        (evaluate_content cfg b.content_class b.content_confidence)
        (evaluate_text cfg (pyLower (joinSpace b.ocr_text))
          b.text_confidence)).decision := by
  unfold finalDecisionOf
  rw [make_moderation_decision_of_safety hs]
  rfl

theorem finalConfidenceOf_of_safety {cfg : Config} {b : SignalBundle}
    {s : FactorVerdict}
    (hs : evaluate_safety b.safety_scores b.is_safe b.risk_level = .ok s) :
    finalConfidenceOf cfg b =
      some (combine_decision_factors s
        (evaluate_content cfg b.content_class b.content_confidence)
        (evaluate_text cfg (pyLower (joinSpace b.ocr_text))
          b.text_confidence)).confidence := by
  unfold finalConfidenceOf
  rw [make_moderation_decision_of_safety hs]
  rfl

/-! ### Claims -/

/-- C1: for every signal bundle, if any of the three factor evaluations
(safety_check, content_check, text_check) returns result REJECT, the final
moderation decision returned by evaluate is REJECTED regardless of the other
two factors, and the final confidence equals the maximum confidence among the
factors whose result is REJECT: it bounds every rejecting factor's confidence
from above and is attained by one of them. -/
theorem C1_reject_priority (cfg : Config) (b : SignalBundle)
    (s c t : FactorVerdict)
    (hs : evaluate_safety b.safety_scores b.is_safe b.risk_level = .ok s)
    (hc : evaluate_content cfg b.content_class b.content_confidence = c)
    (ht : evaluate_text cfg (pyLower (joinSpace b.ocr_text)) b.text_confidence = t)
    (hrej : s.result = .REJECT ∨ c.result = .REJECT ∨ t.result = .REJECT) :
    finalDecisionOf cfg b = some "REJECTED" ∧
    finalConfidenceOf cfg b = some (listMax (reject_confidences [s, c, t])) ∧
    (s.result = .REJECT →
      s.confidence ≤ listMax (reject_confidences [s, c, t])) ∧
    (c.result = .REJECT →
      c.confidence ≤ listMax (reject_confidences [s, c, t])) ∧
    (t.result = .REJECT →
      t.confidence ≤ listMax (reject_confidences [s, c, t])) ∧
    ((s.result = .REJECT ∧
        listMax (reject_confidences [s, c, t]) = s.confidence) ∨
     (c.result = .REJECT ∧
        listMax (reject_confidences [s, c, t]) = c.confidence) ∨
     (t.result = .REJECT ∧
        listMax (reject_confidences [s, c, t]) = t.confidence)) := by
  have hd := @finalDecisionOf_of_safety cfg b s hs
  have hcf := @finalConfidenceOf_of_safety cfg b s hs
  rw [hc, ht, combine_of_reject hrej] at hd hcf
  have hne : reject_confidences [s, c, t] ≠ [] := by
    unfold reject_confidences
    rcases hrej with h | h | h
    · have hmem : s ∈ [s, c, t].filter (fun f => f.result == FactorResult.REJECT) :=
        List.mem_filter.mpr ⟨by simp, by simp [h]⟩
      exact List.ne_nil_of_mem (List.mem_map_of_mem _ hmem)
    · have hmem : c ∈ [s, c, t].filter (fun f => f.result == FactorResult.REJECT) :=
        List.mem_filter.mpr ⟨by simp, by simp [h]⟩
      exact List.ne_nil_of_mem (List.mem_map_of_mem _ hmem)
    · have hmem : t ∈ [s, c, t].filter (fun f => f.result == FactorResult.REJECT) :=
        List.mem_filter.mpr ⟨by simp, by simp [h]⟩
      exact List.ne_nil_of_mem (List.mem_map_of_mem _ hmem)
  refine ⟨hd, hcf, ?_, ?_, ?_, ?_⟩
  · intro hx
    refine le_listMax _ _ ?_
    unfold reject_confidences
    have hmem : s ∈ [s, c, t].filter (fun f => f.result == FactorResult.REJECT) :=
      List.mem_filter.mpr ⟨by simp, by simp [hx]⟩
    exact List.mem_map_of_mem _ hmem
  · intro hx
    refine le_listMax _ _ ?_
    unfold reject_confidences
    have hmem : c ∈ [s, c, t].filter (fun f => f.result == FactorResult.REJECT) :=
      List.mem_filter.mpr ⟨by simp, by simp [hx]⟩
    exact List.mem_map_of_mem _ hmem
  · intro hx
    refine le_listMax _ _ ?_
    unfold reject_confidences
    have hmem : t ∈ [s, c, t].filter (fun f => f.result == FactorResult.REJECT) :=
      List.mem_filter.mpr ⟨by simp, by simp [hx]⟩
    exact List.mem_map_of_mem _ hmem
  · have hmem := listMax_mem _ hne
    unfold reject_confidences at hmem
    rw [List.mem_map] at hmem
    obtain ⟨f, hf, hfe⟩ := hmem
    rw [List.mem_filter] at hf
    have hfr : f.result = FactorResult.REJECT := by
      have := hf.2
      simpa using this
    have hfl : f = s ∨ f = c ∨ f = t := by
      have := hf.1
      simpa using this
    rcases hfl with h | h | h
    · subst h; exact Or.inl ⟨hfr, hfe.symm⟩
    · subst h; exact Or.inr (Or.inl ⟨hfr, hfe.symm⟩)
    · subst h; exact Or.inr (Or.inr ⟨hfr, hfe.symm⟩)

/-- Witness for C1 on a bundle with an unsafe flag and a sensitive category:
two factors reject, the decision is REJECTED and the confidence is the
largest rejecting confidence. -/
theorem C1_reject_priority_witness :
    finalDecisionOf defaultConfig bundleRejectTwo = some "REJECTED" ∧
    finalConfidenceOf defaultConfig bundleRejectTwo =
      some (listMax (reject_confidences
        [safetyRejectVerdict, contentRejectVerdict, textApproveNoText])) ∧
    (safetyRejectVerdict.result = .REJECT →
      safetyRejectVerdict.confidence ≤ listMax (reject_confidences
        [safetyRejectVerdict, contentRejectVerdict, textApproveNoText])) ∧
    (contentRejectVerdict.result = .REJECT →
      contentRejectVerdict.confidence ≤ listMax (reject_confidences
        [safetyRejectVerdict, contentRejectVerdict, textApproveNoText])) ∧
    (textApproveNoText.result = .REJECT →
      textApproveNoText.confidence ≤ listMax (reject_confidences
        [safetyRejectVerdict, contentRejectVerdict, textApproveNoText])) ∧
    ((safetyRejectVerdict.result = .REJECT ∧
        listMax (reject_confidences
          [safetyRejectVerdict, contentRejectVerdict, textApproveNoText]) =
          safetyRejectVerdict.confidence) ∨
     (contentRejectVerdict.result = .REJECT ∧
        listMax (reject_confidences
          [safetyRejectVerdict, contentRejectVerdict, textApproveNoText]) =
          contentRejectVerdict.confidence) ∨
     (textApproveNoText.result = .REJECT ∧
        listMax (reject_confidences
          [safetyRejectVerdict, contentRejectVerdict, textApproveNoText]) =
          textApproveNoText.confidence)) :=
  C1_reject_priority defaultConfig bundleRejectTwo
    safetyRejectVerdict contentRejectVerdict textApproveNoText
    (by with_unfolding_all decide) (by with_unfolding_all decide)
    (by with_unfolding_all decide) (Or.inl rfl)

/-- C2: for every signal bundle, if no factor evaluation returns REJECT but
at least one returns REVIEW, the final moderation decision is REVIEW_REQUIRED
and the final confidence is the arithmetic mean of all three factor
confidences, including those of APPROVE factors. -/
theorem C2_review_dominance (cfg : Config) (b : SignalBundle)
    (s c t : FactorVerdict)
    (hs : evaluate_safety b.safety_scores b.is_safe b.risk_level = .ok s)
    (hc : evaluate_content cfg b.content_class b.content_confidence = c)
    (ht : evaluate_text cfg (pyLower (joinSpace b.ocr_text)) b.text_confidence = t)
    (hnorej : s.result ≠ .REJECT ∧ c.result ≠ .REJECT ∧ t.result ≠ .REJECT)
    (hrev : s.result = .REVIEW ∨ c.result = .REVIEW ∨ t.result = .REVIEW) :
    finalDecisionOf cfg b = some "REVIEW_REQUIRED" ∧
    finalConfidenceOf cfg b =
      some ((s.confidence + c.confidence + t.confidence) / 3) := by
  have hd := @finalDecisionOf_of_safety cfg b s hs
  have hcf := @finalConfidenceOf_of_safety cfg b s hs
  rw [hc, ht, combine_of_review hnorej.1 hnorej.2.1 hnorej.2.2 hrev] at hd hcf
  exact ⟨hd, hcf⟩

/-- Witness for C2 on a bundle whose classification confidence 0.5 is below
the 0.7 threshold: content reviews, the others approve. -/
theorem C2_review_dominance_witness :
    finalDecisionOf defaultConfig bundleReview = some "REVIEW_REQUIRED" ∧
    finalConfidenceOf defaultConfig bundleReview =
      some ((safetyApproveVerdict.confidence + contentReviewVerdict.confidence +
        textApproveNoText.confidence) / 3) :=
  C2_review_dominance defaultConfig bundleReview
    safetyApproveVerdict contentReviewVerdict textApproveNoText
    (by with_unfolding_all decide) (by with_unfolding_all decide)
    (by with_unfolding_all decide)
    ⟨by decide, by decide, by decide⟩ (Or.inr (Or.inl rfl))

/-- C3: for every signal bundle (whose safety evaluation does not raise),
the final moderation decision is APPROVED exactly when all three factor
evaluations return APPROVE, and in that case the final confidence is the
arithmetic mean of the three factor confidences. -/
theorem C3_all_approve (cfg : Config) (b : SignalBundle)
    (s c t : FactorVerdict)
    (hs : evaluate_safety b.safety_scores b.is_safe b.risk_level = .ok s)
    (hc : evaluate_content cfg b.content_class b.content_confidence = c)
    (ht : evaluate_text cfg (pyLower (joinSpace b.ocr_text)) b.text_confidence = t) :
    (finalDecisionOf cfg b = some "APPROVED" ↔
      s.result = .APPROVE ∧ c.result = .APPROVE ∧ t.result = .APPROVE) ∧
    (s.result = .APPROVE → c.result = .APPROVE → t.result = .APPROVE →
      finalConfidenceOf cfg b =
        some ((s.confidence + c.confidence + t.confidence) / 3)) := by
  have hd := @finalDecisionOf_of_safety cfg b s hs
  have hcf := @finalConfidenceOf_of_safety cfg b s hs
  rw [hc, ht] at hd hcf
  constructor
  · rw [hd, Option.some_inj]
    exact combine_decision_approved_iff s c t
  · intro h1 h2 h3
    rw [hcf, combine_of_approve h1 h2 h3]

/-- Witness for C3 on the all-approve bundle of spec scenario 2: decision
APPROVED with confidence the mean of 0.9, 0.8 and 1.0. -/
theorem C3_all_approve_witness :
    (finalDecisionOf defaultConfig bundleAllApprove = some "APPROVED" ↔
      safetyApproveVerdict.result = .APPROVE ∧
      contentApproveVerdict.result = .APPROVE ∧
      textApproveNoText.result = .APPROVE) ∧
    (safetyApproveVerdict.result = .APPROVE →
      contentApproveVerdict.result = .APPROVE →
      textApproveNoText.result = .APPROVE →
      finalConfidenceOf defaultConfig bundleAllApprove =
        some ((safetyApproveVerdict.confidence + contentApproveVerdict.confidence +
          textApproveNoText.confidence) / 3)) :=
  C3_all_approve defaultConfig bundleAllApprove
    safetyApproveVerdict contentApproveVerdict textApproveNoText
    (by with_unfolding_all decide) (by with_unfolding_all decide)
    (by with_unfolding_all decide)

/-- C5: for every bundle whose ocrTexts sequence is empty, or joins to a
blank string, the text factor evaluates to APPROVE with confidence 1.0 and
reason No text detected, for every value of textConfidences. -/
theorem C5_empty_text_short_circuit (cfg : Config) (b : SignalBundle)
    (h : b.ocr_text = [] ∨ (pyStrip (pyLower (joinSpace b.ocr_text))).data = []) :
    evaluate_text cfg (pyLower (joinSpace b.ocr_text)) b.text_confidence =
      { result := .APPROVE, confidence := 1, reason := "No text detected" } := by
  have hblank : (pyStrip (pyLower (joinSpace b.ocr_text))).data = [] := by
    rcases h with h | h
    · rw [h]; rfl
    · exact h
  unfold evaluate_text
  rw [hblank]
  rfl

/-- Witness for C5: empty ocrTexts with low OCR confidences present still
yield APPROVE with confidence 1. -/
theorem C5_empty_text_short_circuit_witness :
    evaluate_text defaultConfig
      (pyLower (joinSpace bundleEmptyTextLowConf.ocr_text))
      bundleEmptyTextLowConf.text_confidence =
      { result := .APPROVE, confidence := 1, reason := "No text detected" } :=
  C5_empty_text_short_circuit defaultConfig bundleEmptyTextLowConf (Or.inl rfl)

/-- C6: for every bundle whose joined lowercased OCR text is non-blank and
contains a blocked keyword, the text factor returns REJECT with confidence
0.9 and its reason names the first matching keyword in configured list
order: k matches, and every keyword before k in the configured list does
not. -/
theorem C6_first_keyword_order (cfg : Config) (b : SignalBundle)
    (pre post : List String) (k : String)
    (hnb : (pyStrip (pyLower (joinSpace b.ocr_text))).data.isEmpty = false)
    (hsplit : cfg.blocked_keywords = pre ++ k :: post)
    (hk : containsKeyword (pyLower (joinSpace b.ocr_text)) k = true)
    (hpre : ∀ x ∈ pre, containsKeyword (pyLower (joinSpace b.ocr_text)) x = false) :
    evaluate_text cfg (pyLower (joinSpace b.ocr_text)) b.text_confidence =
      { result := .REJECT, confidence := 0.9,
        reason := "Blocked keyword: " ++ k } := by
  unfold evaluate_text
  rw [if_neg (by rw [hnb]; exact Bool.false_ne_true)]
  rw [hsplit, find?_first pre post k hk hpre]

/-- Witness for C6: the OCR text contains both hate and illegal; hate comes
first in the configured keyword order and names the rejection reason. -/
theorem C6_first_keyword_order_witness :
    evaluate_text defaultConfig
      (pyLower (joinSpace bundleKeyword.ocr_text)) bundleKeyword.text_confidence =
      { result := .REJECT, confidence := 0.9,
        reason := "Blocked keyword: " ++ "hate" } :=
  C6_first_keyword_order defaultConfig bundleKeyword
    ["violence", "weapon"]
    ["discrimination", "illegal", "drugs", "explicit", "inappropriate"]
    "hate" (by decide) (by decide) (by decide) (by decide)

theorem reject_confidences_ne_nil {s c t : FactorVerdict}
    (hrej : s.result = .REJECT ∨ c.result = .REJECT ∨ t.result = .REJECT) :
    reject_confidences [s, c, t] ≠ [] := by
  unfold reject_confidences
  rcases hrej with h | h | h
  · have hmem : s ∈ [s, c, t].filter (fun f => f.result == FactorResult.REJECT) :=
      List.mem_filter.mpr ⟨by simp, by simp [h]⟩
    exact List.ne_nil_of_mem (List.mem_map_of_mem _ hmem)
  · have hmem : c ∈ [s, c, t].filter (fun f => f.result == FactorResult.REJECT) :=
      List.mem_filter.mpr ⟨by simp, by simp [h]⟩
    exact List.ne_nil_of_mem (List.mem_map_of_mem _ hmem)
  · have hmem : t ∈ [s, c, t].filter (fun f => f.result == FactorResult.REJECT) :=
      List.mem_filter.mpr ⟨by simp, by simp [h]⟩
    exact List.ne_nil_of_mem (List.mem_map_of_mem _ hmem)

theorem evaluate_safety_confidence_bounds {ss : List ℚ} {sf : Bool}
    {rl : String} {f : FactorVerdict}
    (hss : ∀ x ∈ ss, 0 ≤ x ∧ x ≤ 1)
    (hf : evaluate_safety ss sf rl = .ok f) :
    0 ≤ f.confidence ∧ f.confidence ≤ 1 := by
  unfold evaluate_safety at hf
  split at hf
  next safe_score nsfw_score h0 h1 =>
    split_ifs at hf with hb1 hb2
    · cases hf
      constructor <;> norm_num
    · cases hf
      constructor <;> norm_num
    · have hv : safe_score ∈ ss := List.getElem?_mem h0
      cases hf
      exact hss safe_score hv
  next =>
    exact Except.noConfusion hf

theorem evaluate_content_confidence (cfg : Config) (cc : Int) (q : ℚ) :
    (evaluate_content cfg cc q).confidence = q := by
  unfold evaluate_content
  split_ifs <;> rfl

theorem evaluate_text_confidence_cases (cfg : Config) (txt : String)
    (tcs : List ℚ) :
    (evaluate_text cfg txt tcs).confidence = 1 ∨
    (evaluate_text cfg txt tcs).confidence = 0.9 ∨
    (evaluate_text cfg txt tcs).confidence =
      (if tcs.length > 0 then tcs.sum / (tcs.length : ℚ) else 0) := by
  unfold evaluate_text
  by_cases h1 : (pyStrip txt).data.isEmpty = true
  · rw [if_pos h1]
    exact Or.inl rfl
  · rw [if_neg h1]
    cases hf : List.find? (fun keyword => containsKeyword txt keyword)
        cfg.blocked_keywords with
    | some k => exact Or.inr (Or.inl rfl)
    | none =>
      refine Or.inr (Or.inr ?_)
      dsimp only []
      by_cases h2 : (if tcs.length > 0 then tcs.sum / (tcs.length : ℚ) else 0) <
          cfg.text_confidence_threshold
      · rw [if_pos h2]
      · rw [if_neg h2]

theorem evaluate_text_confidence_bounds (cfg : Config) (txt : String)
    (tcs : List ℚ) (htc : ∀ x ∈ tcs, 0 ≤ x ∧ x ≤ 1) :
    0 ≤ (evaluate_text cfg txt tcs).confidence ∧
      (evaluate_text cfg txt tcs).confidence ≤ 1 := by
  have havg : 0 ≤ (if tcs.length > 0 then tcs.sum / (tcs.length : ℚ) else 0) ∧
      (if tcs.length > 0 then tcs.sum / (tcs.length : ℚ) else 0) ≤ 1 := by
    split_ifs with hl
    · constructor
      · exact div_nonneg (list_sum_nonneg tcs (fun x hx => (htc x hx).1))
          (Nat.cast_nonneg _)
      · rw [div_le_one (by exact_mod_cast hl)]
        exact list_sum_le_length tcs (fun x hx => (htc x hx).2)
    · constructor <;> norm_num
  rcases evaluate_text_confidence_cases cfg txt tcs with h | h | h <;> rw [h]
  · constructor <;> norm_num
  · constructor <;> norm_num
  · exact havg

theorem combine_confidence_bounds (s c t : FactorVerdict)
    (hsb : 0 ≤ s.confidence ∧ s.confidence ≤ 1)
    (hcb : 0 ≤ c.confidence ∧ c.confidence ≤ 1)
    (htb : 0 ≤ t.confidence ∧ t.confidence ≤ 1) :
    0 ≤ (combine_decision_factors s c t).confidence ∧
      (combine_decision_factors s c t).confidence ≤ 1 := by
  have hmean : 0 ≤ (s.confidence + c.confidence + t.confidence) / 3 ∧
      (s.confidence + c.confidence + t.confidence) / 3 ≤ 1 := by
    constructor
    · apply div_nonneg _ (by norm_num)
      linarith [hsb.1, hcb.1, htb.1]
    · rw [div_le_one (by norm_num)]
      linarith [hsb.2, hcb.2, htb.2]
  by_cases hrej : s.result = .REJECT ∨ c.result = .REJECT ∨ t.result = .REJECT
  · rw [combine_of_reject hrej]
    have hne := reject_confidences_ne_nil hrej
    have hmem := listMax_mem _ hne
    have hall : ∀ x ∈ reject_confidences [s, c, t], 0 ≤ x ∧ x ≤ 1 := by
      intro x hx
      unfold reject_confidences at hx
      rw [List.mem_map] at hx
      obtain ⟨f, hf, hfe⟩ := hx
      rw [List.mem_filter] at hf
      have hfl : f = s ∨ f = c ∨ f = t := by simpa using hf.1
      rcases hfl with rfl | rfl | rfl
      · rw [← hfe]; exact hsb
      · rw [← hfe]; exact hcb
      · rw [← hfe]; exact htb
    exact hall _ hmem
  · push_neg at hrej
    by_cases hrev : s.result = .REVIEW ∨ c.result = .REVIEW ∨ t.result = .REVIEW
    · rw [combine_of_review hrej.1 hrej.2.1 hrej.2.2 hrev]
      exact hmean
    · push_neg at hrev
      have hsa : s.result = .APPROVE := by
        cases hx : s.result
        · rfl
        · exact absurd hx hrev.1
        · exact absurd hx hrej.1
      have hca : c.result = .APPROVE := by
        cases hx : c.result
        · rfl
        · exact absurd hx hrev.2.1
        · exact absurd hx hrej.2.1
      have hta : t.result = .APPROVE := by
        cases hx : t.result
        · rfl
        · exact absurd hx hrev.2.2
        · exact absurd hx hrej.2.2
      rw [combine_of_approve hsa hca hta]
      exact hmean

/-- C7 (amended): for every signal bundle whose safety scores, content
confidence and OCR text confidences all lie in [0,1], and on which evaluate
returns a confidence, that final confidence lies in [0,1].  (Without the
interval hypotheses on the inputs the claim is false, see the
counterexample.) -/
theorem C7_confidence_unit_interval (cfg : Config) (b : SignalBundle) (q : ℚ)
    (hss : ∀ x ∈ b.safety_scores, 0 ≤ x ∧ x ≤ 1)
    (hcc : 0 ≤ b.content_confidence ∧ b.content_confidence ≤ 1)
    (htc : ∀ x ∈ b.text_confidence, 0 ≤ x ∧ x ≤ 1)
    (hq : finalConfidenceOf cfg b = some q) :
    0 ≤ q ∧ q ≤ 1 := by
  cases hsf : evaluate_safety b.safety_scores b.is_safe b.risk_level with
  | error e =>
    unfold finalConfidenceOf make_moderation_decision at hq
    rw [hsf] at hq
    simp [Except.toOption] at hq
  | ok s =>
    have hcf := @finalConfidenceOf_of_safety cfg b s hsf
    rw [hq] at hcf
    have hqe := Option.some.inj hcf
    rw [hqe]
    apply combine_confidence_bounds
    · exact evaluate_safety_confidence_bounds hss hsf
    · rw [evaluate_content_confidence]
      exact hcc
    · exact evaluate_text_confidence_bounds cfg _ _ htc

/-- Witness for the amended C7 on the all-approve bundle: the returned
confidence 0.9 lies in [0,1]. -/
theorem C7_confidence_unit_interval_witness :
    finalConfidenceOf defaultConfig bundleAllApprove = some (9/10) ∧
      (0 ≤ (9/10 : ℚ) ∧ (9/10 : ℚ) ≤ 1) :=
  ⟨by with_unfolding_all decide,
   C7_confidence_unit_interval defaultConfig bundleAllApprove (9/10)
     (by with_unfolding_all decide) (by with_unfolding_all decide)
     (by with_unfolding_all decide) (by with_unfolding_all decide)⟩

/-- Counterexample to C7 as stated: on a bundle whose safe score is 1.5 (all
factors approve, no validation rejects it), evaluate returns final
confidence 17/15, which is greater than 1. -/
theorem C7_confidence_counterexample :
    finalConfidenceOf defaultConfig bundleOverScore = some (17/15) ∧
      ¬ ((17/15 : ℚ) ≤ 1) := by
  constructor
  · with_unfolding_all decide
  · norm_num

/-- C8: the verdict produced by evaluate is independent of the configured
safetyThreshold: changing only that configuration field leaves the entire
moderation result (decision, confidence, audit trail) unchanged, because the
safety rule branches only on isSafe, riskLevel, and the hard-coded 0.3 nsfw
cutoff. -/
theorem C8_safety_threshold_unused (cfg : Config) (th : ℚ) (b : SignalBundle) :
    make_moderation_decision { cfg with safety_threshold := th } b =
      make_moderation_decision cfg b := rfl

/-- C9: two requests that agree on everything except the content_scores and
detected_language tensors produce identical moderation results: those two
extracted inputs are never read by the decision logic. -/
theorem C9_unread_inputs (cfg : Config) (b : SignalBundle) (cs : List ℚ)
    (dl : String) :
    make_moderation_decision cfg
        { b with content_scores := cs, detected_language := dl } =
      make_moderation_decision cfg b := rfl

/-- C4: contrary to the specification, evaluate does not fail fast on an
out-of-contract bundle.  A content confidence of 5 (outside [0,1]) together
with the unknown riskLevel string UNRECOGNIZED is processed without any
validation error and yields a normal APPROVED verdict whose confidence 2.3
is itself out of range; and a wrong-length safetyScores produces only a
generic index error, not a validation error identifying the field. -/
theorem C4_no_validation :
    finalDecisionOf defaultConfig bundleOutOfContract = some "APPROVED" ∧
    finalConfidenceOf defaultConfig bundleOutOfContract = some (23/10) ∧
    make_moderation_decision defaultConfig bundleShortScores =
      .error "index out of range" := by
  refine ⟨?_, ?_, ?_⟩ <;> with_unfolding_all decide

/-- C10: execute returns one response per request in request order (length
preserved, and the response at any position is the image of the request at
that position); replacing the request at position i by one whose processing
fails puts an error response at position i and leaves every other position's
response unchanged. -/
theorem C10_batch_isolation (cfg : Config) (reqs reqs2 : List SignalBundle)
    (i j : ℕ) (b : SignalBundle) (e : String)
    (hlen : reqs2.length = reqs.length)
    (hagree : ∀ n, n < reqs.length → n ≠ i → reqs2[n]? = reqs[n]?)
    (hj : j ≠ i)
    (hb : reqs2[i]? = some b)
    (he : make_moderation_decision cfg b = .error e) :
    (execute cfg reqs).length = reqs.length ∧
    (execute cfg reqs)[j]? = (reqs[j]?).map (process_request cfg) ∧
    (execute cfg reqs2)[i]? =
      some (InferenceResponse.error ("Processing error: " ++ e)) ∧
    (execute cfg reqs2)[j]? = (execute cfg reqs)[j]? := by
  refine ⟨?_, ?_, ?_, ?_⟩
  · unfold execute
    exact List.length_map _ _
  · unfold execute
    rw [List.getElem?_map]
  · unfold execute
    rw [List.getElem?_map, hb]
    simp [process_request, he]
  · unfold execute
    rw [List.getElem?_map, List.getElem?_map]
    by_cases hlt : j < reqs.length
    · rw [hagree j hlt hj]
    · have h1 : reqs[j]? = none := List.getElem?_eq_none (Nat.le_of_not_lt hlt)
      have h2 : reqs2[j]? = none :=
        List.getElem?_eq_none (by rw [hlen]; exact Nat.le_of_not_lt hlt)
      rw [h1, h2]

/-- Witness for C10 on a two-request batch whose second request has a
wrong-length safetyScores: the first response is unchanged and the second is
the error response. -/
theorem C10_batch_isolation_witness :
    (execute defaultConfig [bundleAllApprove, bundleReview]).length =
      [bundleAllApprove, bundleReview].length ∧
    (execute defaultConfig [bundleAllApprove, bundleReview])[0]? =
      ([bundleAllApprove, bundleReview][0]?).map (process_request defaultConfig) ∧
    (execute defaultConfig [bundleAllApprove, bundleShortScores])[1]? =
      some (InferenceResponse.error ("Processing error: " ++ "index out of range")) ∧
    (execute defaultConfig [bundleAllApprove, bundleShortScores])[0]? =
      (execute defaultConfig [bundleAllApprove, bundleReview])[0]? :=
  C10_batch_isolation defaultConfig [bundleAllApprove, bundleReview]
    [bundleAllApprove, bundleShortScores] 1 0 bundleShortScores
    "index out of range" rfl
    (by intro n hn hni
        have hn2 : n < 2 := by simpa using hn
        interval_cases n
        · rfl
        · exact absurd rfl hni)
    (by decide) rfl (by with_unfolding_all decide)
